import Mathlib

/-!
Shallow embedding of the scoring/derivation core of the golf round-tracking
application: per-hole data model, target rules, loss calculators, the round
summary aggregator, and the template/round transform helpers.

Numbers are embedded as follows: integer counts (strokes, putts, oopsie
counts, stroke indexes) are `Nat`; configurable weights and values produced
by division or decimal rounding are `Rat`; score differentials are `Int`.
Optional fields (TypeScript `x?: T`, absent meaning "not entered yet")
are `Option`.
-/

/-- Skill tier: the TypeScript union "Bogey Golf" | "Break 80" | "Scratch". -/
inductive Level where
  | bogeyGolf
  | break80
  | scratch
deriving DecidableEq

/-- Per-round configurable multipliers for non-lost-ball mishaps. -/
structure Weights where
  bunker : ℚ
  duffed : ℚ
deriving DecidableEq

/-- Mishap counters of a hole. -/
structure Oopsies where
  lostBall : ℕ
  bunker : ℕ
  duffed : ℕ
deriving DecidableEq

/-- Tee shot classification: the TypeScript union "fairway" | "trouble". -/
inductive TeeShot where
  | fairway
  | trouble
deriving DecidableEq

/-- The per-hole record. -/
structure Hole where
  n : ℕ
  par : ℕ
  strokeIndex : ℕ
  strokes : Option ℕ := none
  putts : Option ℕ := none
  missedPutts6ft : Option ℕ := none
  reachedSD : Option Bool := none
  oopsies : Oopsies := ⟨0, 0, 0⟩
  teeShotResult : Option TeeShot := none
deriving DecidableEq

/-- The state of a round. -/
structure RoundState where
  holesCount : ℕ
  level : Level
  scoringDistance : ℚ
  weights : Weights
  holes : List Hole
deriving DecidableEq

/-- Static layout entry of a course template. -/
structure TemplateHole where
  n : ℕ
  par : ℕ
  strokeIndex : ℕ
deriving DecidableEq

/-- A saved course layout. -/
structure CourseTemplate where
  id : String
  name : String
  holesCount : ℕ
  holes : List TemplateHole
  createdAt : String
deriving DecidableEq

/-- The round fields other than the holes, i.e. the TypeScript
Omit of RoundState without holes and holesCount. -/
structure BaseRound where
  level : Level
  scoringDistance : ℚ
  weights : Weights
deriving DecidableEq

/-- Modelled from the spec: the helper round1 lives in src/lib/utils/math,
which is not among the provided sources. The spec states it rounds to one
decimal place with standard half-up rounding at the tenths digit,
i.e. JavaScript Math.round (x * 10) / 10. -/
def round1 (x : ℚ) : ℚ := (⌊x * 10 + 1/2⌋ : ℚ) / 10

/-- JavaScript Math.round: rounds half up (ties toward positive infinity). -/
def jsRound (x : ℚ) : ℤ := ⌊x + 1/2⌋

/-- Shots allotted to reach scoring distance; null (none) on par 3 holes. -/
def allowedShotsToSD (level : Level) (h : Hole) : Option ℕ :=
  if h.par = 3 then none
  else if level = Level.bogeyGolf then some 2
  else if level = Level.break80 then (if h.strokeIndex ≥ 10 then some 1 else some 2)
  else some 1

/-- Target strokes once scoring distance is reached. -/
def targetAfterSD (h : Hole) : ℕ :=
  if h.par = 3 then (if h.strokeIndex ≤ 9 then 4 else 3) else 3

/-- Putting strokes lost: max 0 (putts - 2), and 0 when putts is absent.
Nat subtraction realizes the max with 0. -/
def puttingLost (putts : Option ℕ) : ℕ :=
  match putts with
  | none => 0
  | some p => p - 2

/-- Per-hole strokes lost: lost balls cost 2 each, bunker and duffed
mishaps cost their configured weights, plus putting loss, rounded to one
decimal. -/
def holeStrokesLost (h : Hole) (w : Weights) : ℚ :=
  round1 ((h.oopsies.lostBall : ℚ) * 2 +
    ((h.oopsies.bunker : ℚ) * w.bunker + (h.oopsies.duffed : ℚ) * w.duffed) +
    (puttingLost h.putts : ℚ))

/-- Par-3-equivalent success approximation. The subtraction of the allowed
shots from the strokes is done over the integers, as in the source. -/
def par3Equivalent (level : Level) (h : Hole) : Option Bool :=
  match h.strokes with
  | none => none
  | some s =>
    if h.par = 3 then some (decide (s ≤ targetAfterSD h))
    else
      match allowedShotsToSD level h with
      | none => none
      | some a => some (decide ((s : ℤ) - (a : ℤ) ≤ (targetAfterSD h : ℤ)))

/-- Evaluation rule for round1 at a known integer tenths value. -/
theorem round1_eq (x : ℚ) (z : ℤ) (h1 : (z : ℚ) ≤ x * 10 + 1/2)
    (h2 : x * 10 + 1/2 < z + 1) : round1 x = (z : ℚ) / 10 := by
  rw [round1, Int.floor_eq_iff.mpr ⟨h1, h2⟩]

/-- Evaluation rule for jsRound at a known integer value. -/
theorem jsRound_eq (x : ℚ) (z : ℤ) (h1 : (z : ℚ) ≤ x + 1/2)
    (h2 : x + 1/2 < z + 1) : jsRound x = z := by
  rw [jsRound, Int.floor_eq_iff.mpr ⟨h1, h2⟩]

example : round1 4 = 4 := by rw [round1_eq 4 40 (by norm_num) (by norm_num)]; norm_num
example : round1 (-1) = -1 := by
  rw [round1_eq (-1) (-10) (by norm_num) (by norm_num)]; norm_num
example : jsRound ((1 : ℚ)/1 * 100) = 100 := by
  rw [jsRound_eq ((1 : ℚ)/1 * 100) 100 (by norm_num) (by norm_num)]
example : par3Equivalent Level.scratch ⟨1, 4, 5, some 5, none, none, none, ⟨0,0,0⟩, none⟩ = some false := by decide

/-- Accumulator of the single pass of computeRoundSummary, one field per
local counter of the source loop. -/
structure SummaryAcc where
  totalStrokes : ℕ
  totalPar : ℕ
  holesWithStrokes : ℕ
  sdEligible : ℕ
  sdMade : ℕ
  npirEligible : ℕ
  npirMade : ℕ
  p3Eligible : ℕ
  p3Made : ℕ
  puttsEntered : ℕ
  puttsTotal : ℕ
  puttsLostTotal : ℕ
  missedPutts6ftTotal : ℕ
  holesWithPutts : ℕ
  holesWithMissedPutts6ft : ℕ
  teeShotsFairwayTotal : ℕ
  teeShotsTroubleTotal : ℕ
  strokesLostTotal : ℚ
deriving DecidableEq

/-- All counters start at zero. -/
def initAcc : SummaryAcc := ⟨0, 0, 0, 0, 0, 0, 0, 0, 0, 0, 0, 0, 0, 0, 0, 0, 0, 0⟩

/-- Unconditional part of the loop body: par and stroke-loss accumulation. -/
def stepAlways (w : Weights) (a : SummaryAcc) (h : Hole) : SummaryAcc :=
  { a with totalPar := a.totalPar + h.par,
           strokesLostTotal := a.strokesLostTotal + holeStrokesLost h w }

/-- Strokes totals of a finished hole. -/
def strokesBump (a : SummaryAcc) (s : ℕ) : SummaryAcc :=
  { a with holesWithStrokes := a.holesWithStrokes + 1,
           totalStrokes := a.totalStrokes + s }

/-- SD and NPIR counters of a finished non-par-3 hole: the hole is eligible
for both; it counts as made for SD exactly when reachedSD is true and as
made for NPIR exactly otherwise (unchecked counts as an NPIR miss). -/
def sdBump (a : SummaryAcc) (h : Hole) : SummaryAcc :=
  if h.par ≠ 3 then
    { a with sdEligible := a.sdEligible + 1,
             sdMade := a.sdMade + (if h.reachedSD = some true then 1 else 0),
             npirEligible := a.npirEligible + 1,
             npirMade := a.npirMade + (if h.reachedSD = some true then 0 else 1) }
  else a

/-- Par-3-equivalent counters of a finished hole. -/
def p3Bump (level : Level) (a : SummaryAcc) (h : Hole) : SummaryAcc :=
  match par3Equivalent level h with
  | none => a
  | some b => { a with p3Eligible := a.p3Eligible + 1,
                       p3Made := a.p3Made + (if b then 1 else 0) }

/-- Part of the loop body guarded by the presence of strokes: totals,
SD and NPIR counters on non-par-3 holes, and the par-3-equivalent counters,
in the order of the source. -/
def stepStrokes (level : Level) (a : SummaryAcc) (h : Hole) : SummaryAcc :=
  match h.strokes with
  | none => a
  | some s => p3Bump level (sdBump (strokesBump a s) h) h

/-- Part of the loop body guarded by the presence of putts. -/
def stepPutts (a : SummaryAcc) (h : Hole) : SummaryAcc :=
  match h.putts with
  | none => a
  | some p => { a with puttsEntered := a.puttsEntered + 1,
                       puttsTotal := a.puttsTotal + p,
                       puttsLostTotal := a.puttsLostTotal + puttingLost (some p),
                       holesWithPutts := a.holesWithPutts + 1 }

/-- Part of the loop body tracking missed short putts. -/
def stepMissed (a : SummaryAcc) (h : Hole) : SummaryAcc :=
  match h.missedPutts6ft with
  | none => a
  | some m =>
    if 0 < m then
      { a with missedPutts6ftTotal := a.missedPutts6ftTotal + m,
               holesWithMissedPutts6ft :=
                 a.holesWithMissedPutts6ft + (if h.putts = none then 0 else 1) }
    else a

/-- Part of the loop body classifying the tee shot on non-par-3 holes. -/
def stepTee (a : SummaryAcc) (h : Hole) : SummaryAcc :=
  if h.par ≠ 3 then
    { a with teeShotsFairwayTotal :=
               a.teeShotsFairwayTotal + (if h.teeShotResult = some TeeShot.fairway then 1 else 0),
             teeShotsTroubleTotal :=
               a.teeShotsTroubleTotal + (if h.teeShotResult = some TeeShot.trouble then 1 else 0) }
  else a

/-- One full iteration of the loop of computeRoundSummary. The five parts
touch disjoint sets of counters and each reads only the hole and its own
counters, so sequential composition mirrors the source loop body exactly. -/
def stepHole (level : Level) (w : Weights) (a : SummaryAcc) (h : Hole) : SummaryAcc :=
  stepTee (stepMissed (stepPutts (stepStrokes level (stepAlways w a h) h) h) h) h

/-- The accumulator after the pass over the first holesCount holes. -/
def roundAcc (round : RoundState) : SummaryAcc :=
  (round.holes.take round.holesCount).foldl (stepHole round.level round.weights) initAcc

/-- The derived read-only summary record. -/
structure RoundSummary where
  strokes : Option ℕ
  toPar : Option ℤ
  sdPct : Option ℤ
  sdMade : ℕ
  sdEligible : ℕ
  npirPct : Option ℤ
  npirMade : ℕ
  npirEligible : ℕ
  p3Pct : Option ℤ
  p3Made : ℕ
  p3Eligible : ℕ
  avgPutts : Option ℚ
  puttsLostTotal : ℚ
  missedPutts6ftTotal : ℕ
  missedPutts6ftPct : Option ℤ
  teeShotsFairwayTotal : ℕ
  teeShotsTroubleTotal : ℕ
  teeShotsFairwayPct : Option ℤ
  strokesLostTotal : ℚ
deriving DecidableEq

/-- Post-loop derivations: each percentage (and each average or total that
divides by a count) is undefined when its denominator is zero, mirroring the
JavaScript truthiness guards of the source. -/
def summarize (a : SummaryAcc) : RoundSummary :=
  { strokes := if a.holesWithStrokes = 0 then none else some a.totalStrokes,
    toPar := if a.holesWithStrokes = 0 then none
             else some ((a.totalStrokes : ℤ) - (a.totalPar : ℤ)),
    sdPct := if a.sdEligible = 0 then none
             else some (jsRound ((a.sdMade : ℚ) / (a.sdEligible : ℚ) * 100)),
    sdMade := a.sdMade,
    sdEligible := a.sdEligible,
    npirPct := if a.npirEligible = 0 then none
               else some (jsRound ((a.npirMade : ℚ) / (a.npirEligible : ℚ) * 100)),
    npirMade := a.npirMade,
    npirEligible := a.npirEligible,
    p3Pct := if a.p3Eligible = 0 then none
             else some (jsRound ((a.p3Made : ℚ) / (a.p3Eligible : ℚ) * 100)),
    p3Made := a.p3Made,
    p3Eligible := a.p3Eligible,
    avgPutts := if a.puttsEntered = 0 then none
                else some (round1 ((a.puttsTotal : ℚ) / (a.puttsEntered : ℚ))),
    puttsLostTotal := round1 (a.puttsLostTotal : ℚ),
    missedPutts6ftTotal := a.missedPutts6ftTotal,
    missedPutts6ftPct := if a.holesWithPutts = 0 then none
                         else some (jsRound ((a.holesWithMissedPutts6ft : ℚ) / (a.holesWithPutts : ℚ) * 100)),
    teeShotsFairwayTotal := a.teeShotsFairwayTotal,
    teeShotsTroubleTotal := a.teeShotsTroubleTotal,
    teeShotsFairwayPct := if a.teeShotsFairwayTotal + a.teeShotsTroubleTotal = 0 then none
                          else some (jsRound ((a.teeShotsFairwayTotal : ℚ) /
                            ((a.teeShotsFairwayTotal : ℚ) + (a.teeShotsTroubleTotal : ℚ)) * 100)),
    strokesLostTotal := round1 a.strokesLostTotal }

/-- Single linear pass producing the round summary. -/
def computeRoundSummary (round : RoundState) : RoundSummary :=
  summarize (roundAcc round)

/-- Default hole at zero-based position i: par 4, stroke index i mod 18 + 1,
entry fields empty. -/
def defaultHole (i : ℕ) : Hole :=
  { n := i + 1, par := 4, strokeIndex := i % 18 + 1 }

/-- Array.from of the source: count default holes. -/
def makeDefaultHoles (count : ℕ) : List Hole :=
  (List.range count).map defaultHole

/-- Snapshot of the static layout of the first holesCount holes. The fresh
identifier and the creation timestamp are produced by external effects in
the source (uid and the clock) and are threaded as arguments. -/
def templateFromRound (round : RoundState) (nm newId createdAt : String) : CourseTemplate :=
  { id := newId,
    name := nm,
    holesCount := round.holesCount,
    holes := (round.holes.take round.holesCount).map fun h => ⟨h.n, h.par, h.strokeIndex⟩,
    createdAt := createdAt }

/-- Per-index overlay of the template onto a default hole: par and stroke
index come from the template entry when it exists (the ?? fallback of the
source keeps the default values otherwise) and every entry field is reset. -/
def applyHole (t : CourseTemplate) (idx : ℕ) (h : Hole) : Hole :=
  match t.holes[idx]? with
  | some src =>
    { h with n := idx + 1, par := src.par, strokeIndex := src.strokeIndex,
             strokes := none, putts := none, missedPutts6ft := none,
             reachedSD := none, oopsies := ⟨0, 0, 0⟩ }
  | none =>
    { h with n := idx + 1,
             strokes := none, putts := none, missedPutts6ft := none,
             reachedSD := none, oopsies := ⟨0, 0, 0⟩ }

/-- Build a fresh round on the layout of a template: default holes overlaid
with the par and stroke index of the template by position, all entry fields
reset. -/
def applyTemplateToNewRound (t : CourseTemplate) (base : BaseRound) : RoundState :=
  { holesCount := t.holesCount,
    level := base.level,
    scoringDistance := base.scoringDistance,
    weights := base.weights,
    holes := (makeDefaultHoles t.holesCount).mapIdx (applyHole t) }

/-- Keep the layout of the first holesCount holes, clear every entry field. -/
def resetRoundKeepCourse (round : RoundState) : RoundState :=
  { round with
    holes := (round.holes.take round.holesCount).map fun h =>
      ({ n := h.n, par := h.par, strokeIndex := h.strokeIndex } : Hole) }

/-- An empty concrete round used for witnesses. -/
def emptyRound : RoundState := ⟨0, Level.scratch, 125, ⟨1, 1⟩, []⟩

/-- C5: allowedShotsToSD returns null on par-3 holes regardless of level;
otherwise 1 for Scratch, 2 for Bogey Golf, and for Break 80 it returns 1
when the stroke index is at least 10 and 2 otherwise. -/
theorem claim_C5_allowedShotsToSD (level : Level) (h : Hole) :
    allowedShotsToSD level h =
      if h.par = 3 then none
      else some (match level with
        | Level.scratch => 1
        | Level.bogeyGolf => 2
        | Level.break80 => if h.strokeIndex ≥ 10 then 1 else 2) := by
  cases level <;> simp only [allowedShotsToSD] <;> split_ifs <;> simp_all

/-- The concrete hole of the C6 scenario: par 5, one lost ball, four putts. -/
def c6Hole : Hole := { n := 1, par := 5, strokeIndex := 1, putts := some 4, oopsies := ⟨1, 0, 0⟩ }

/-- C6: holeStrokesLost equals round1 of lostBall times 2 plus weighted
bunker and duffed counts plus the putting loss, for every hole and weights
(strokes are not consulted); and the scenario hole with par 5, one lost
ball and four putts loses exactly 4 strokes under any weights. -/
theorem claim_C6_holeStrokesLost :
    (∀ (h : Hole) (w : Weights),
      holeStrokesLost h w =
        round1 ((h.oopsies.lostBall : ℚ) * 2 + (h.oopsies.bunker : ℚ) * w.bunker +
          (h.oopsies.duffed : ℚ) * w.duffed + (puttingLost h.putts : ℚ)))
    ∧ ∀ w : Weights, holeStrokesLost c6Hole w = 4 := by
  constructor
  · intro h w
    rw [holeStrokesLost]
    congr 1
    ring
  · intro w
    have harg : ((c6Hole.oopsies.lostBall : ℚ) * 2 +
        ((c6Hole.oopsies.bunker : ℚ) * w.bunker + (c6Hole.oopsies.duffed : ℚ) * w.duffed) +
        (puttingLost c6Hole.putts : ℚ)) = 4 := by
      norm_num [c6Hole, puttingLost]
    rw [holeStrokesLost, harg, round1_eq 4 40 (by norm_num) (by norm_num)]
    norm_num

/-- Helper: an if-then-else producing none in the positive branch is none
exactly when the condition holds. -/
theorem ite_none_iff_cond {α : Type} (c : Prop) [Decidable c] (x : α) :
    (if c then none else some x) = none ↔ c := by
  split <;> simp_all

/-- C2: every divided field of the summary is undefined exactly when its
denominator count is zero: the three percentage fields against their
eligible counts, the average putts against the putts-entered count, strokes
and toPar against the holes-with-strokes count, the missed-short-putt
percentage against the holes-with-putts count, and the fairway percentage
against the number of recorded tee shots. -/
theorem claim_C2_undefined_iff_zero_denominator (round : RoundState) :
    ((computeRoundSummary round).sdPct = none ↔ (computeRoundSummary round).sdEligible = 0)
    ∧ ((computeRoundSummary round).npirPct = none ↔ (computeRoundSummary round).npirEligible = 0)
    ∧ ((computeRoundSummary round).p3Pct = none ↔ (computeRoundSummary round).p3Eligible = 0)
    ∧ ((computeRoundSummary round).avgPutts = none ↔ (roundAcc round).puttsEntered = 0)
    ∧ ((computeRoundSummary round).strokes = none ↔ (roundAcc round).holesWithStrokes = 0)
    ∧ ((computeRoundSummary round).toPar = none ↔ (roundAcc round).holesWithStrokes = 0)
    ∧ ((computeRoundSummary round).missedPutts6ftPct = none ↔ (roundAcc round).holesWithPutts = 0)
    ∧ ((computeRoundSummary round).teeShotsFairwayPct = none ↔
        (computeRoundSummary round).teeShotsFairwayTotal +
          (computeRoundSummary round).teeShotsTroubleTotal = 0) := by
  simp only [computeRoundSummary, summarize, ite_none_iff_cond]
  tauto

/-- C4: computeRoundSummary is deterministic: on identical round states the
two summaries agree field for field. -/
theorem claim_C4_deterministic (r r' : RoundState) (h : r = r') :
    (computeRoundSummary r).strokes = (computeRoundSummary r').strokes
    ∧ (computeRoundSummary r).toPar = (computeRoundSummary r').toPar
    ∧ (computeRoundSummary r).sdPct = (computeRoundSummary r').sdPct
    ∧ (computeRoundSummary r).sdMade = (computeRoundSummary r').sdMade
    ∧ (computeRoundSummary r).sdEligible = (computeRoundSummary r').sdEligible
    ∧ (computeRoundSummary r).npirPct = (computeRoundSummary r').npirPct
    ∧ (computeRoundSummary r).npirMade = (computeRoundSummary r').npirMade
    ∧ (computeRoundSummary r).npirEligible = (computeRoundSummary r').npirEligible
    ∧ (computeRoundSummary r).p3Pct = (computeRoundSummary r').p3Pct
    ∧ (computeRoundSummary r).p3Made = (computeRoundSummary r').p3Made
    ∧ (computeRoundSummary r).p3Eligible = (computeRoundSummary r').p3Eligible
    ∧ (computeRoundSummary r).avgPutts = (computeRoundSummary r').avgPutts
    ∧ (computeRoundSummary r).puttsLostTotal = (computeRoundSummary r').puttsLostTotal
    ∧ (computeRoundSummary r).missedPutts6ftTotal = (computeRoundSummary r').missedPutts6ftTotal
    ∧ (computeRoundSummary r).missedPutts6ftPct = (computeRoundSummary r').missedPutts6ftPct
    ∧ (computeRoundSummary r).teeShotsFairwayTotal = (computeRoundSummary r').teeShotsFairwayTotal
    ∧ (computeRoundSummary r).teeShotsTroubleTotal = (computeRoundSummary r').teeShotsTroubleTotal
    ∧ (computeRoundSummary r).teeShotsFairwayPct = (computeRoundSummary r').teeShotsFairwayPct
    ∧ (computeRoundSummary r).strokesLostTotal = (computeRoundSummary r').strokesLostTotal := by
  subst h
  exact ⟨rfl, rfl, rfl, rfl, rfl, rfl, rfl, rfl, rfl, rfl, rfl, rfl, rfl, rfl, rfl, rfl, rfl,
    rfl, rfl⟩

/-- Witness for C4 at the concrete empty round. -/
theorem claim_C4_witness :
    (computeRoundSummary emptyRound).strokes = (computeRoundSummary emptyRound).strokes
    ∧ (computeRoundSummary emptyRound).toPar = (computeRoundSummary emptyRound).toPar
    ∧ (computeRoundSummary emptyRound).sdPct = (computeRoundSummary emptyRound).sdPct
    ∧ (computeRoundSummary emptyRound).sdMade = (computeRoundSummary emptyRound).sdMade
    ∧ (computeRoundSummary emptyRound).sdEligible = (computeRoundSummary emptyRound).sdEligible
    ∧ (computeRoundSummary emptyRound).npirPct = (computeRoundSummary emptyRound).npirPct
    ∧ (computeRoundSummary emptyRound).npirMade = (computeRoundSummary emptyRound).npirMade
    ∧ (computeRoundSummary emptyRound).npirEligible = (computeRoundSummary emptyRound).npirEligible
    ∧ (computeRoundSummary emptyRound).p3Pct = (computeRoundSummary emptyRound).p3Pct
    ∧ (computeRoundSummary emptyRound).p3Made = (computeRoundSummary emptyRound).p3Made
    ∧ (computeRoundSummary emptyRound).p3Eligible = (computeRoundSummary emptyRound).p3Eligible
    ∧ (computeRoundSummary emptyRound).avgPutts = (computeRoundSummary emptyRound).avgPutts
    ∧ (computeRoundSummary emptyRound).puttsLostTotal = (computeRoundSummary emptyRound).puttsLostTotal
    ∧ (computeRoundSummary emptyRound).missedPutts6ftTotal = (computeRoundSummary emptyRound).missedPutts6ftTotal
    ∧ (computeRoundSummary emptyRound).missedPutts6ftPct = (computeRoundSummary emptyRound).missedPutts6ftPct
    ∧ (computeRoundSummary emptyRound).teeShotsFairwayTotal = (computeRoundSummary emptyRound).teeShotsFairwayTotal
    ∧ (computeRoundSummary emptyRound).teeShotsTroubleTotal = (computeRoundSummary emptyRound).teeShotsTroubleTotal
    ∧ (computeRoundSummary emptyRound).teeShotsFairwayPct = (computeRoundSummary emptyRound).teeShotsFairwayPct
    ∧ (computeRoundSummary emptyRound).strokesLostTotal = (computeRoundSummary emptyRound).strokesLostTotal :=
  claim_C4_deterministic emptyRound emptyRound rfl

/-- C10: when the holes list is at least as long as holesCount, resetting a
round while keeping the course truncates the holes list to exactly
holesCount entries and leaves every other round field unchanged. -/
theorem claim_C10_resetRoundKeepCourse (round : RoundState)
    (hlen : round.holesCount ≤ round.holes.length) :
    (resetRoundKeepCourse round).holes.length = round.holesCount
    ∧ (resetRoundKeepCourse round).holesCount = round.holesCount
    ∧ (resetRoundKeepCourse round).level = round.level
    ∧ (resetRoundKeepCourse round).scoringDistance = round.scoringDistance
    ∧ (resetRoundKeepCourse round).weights = round.weights := by
  refine ⟨?_, rfl, rfl, rfl, rfl⟩
  simp [resetRoundKeepCourse, Nat.min_eq_left hlen]

/-- A concrete round with two holes but holesCount one, for the C10 witness. -/
def c10Round : RoundState := ⟨1, Level.scratch, 125, ⟨1, 1⟩, [defaultHole 0, defaultHole 1]⟩

/-- Witness for C10 at a concrete round whose holes list is longer than its
holesCount. -/
theorem claim_C10_witness :
    (resetRoundKeepCourse c10Round).holes.length = c10Round.holesCount
    ∧ (resetRoundKeepCourse c10Round).holesCount = c10Round.holesCount
    ∧ (resetRoundKeepCourse c10Round).level = c10Round.level
    ∧ (resetRoundKeepCourse c10Round).scoringDistance = c10Round.scoringDistance
    ∧ (resetRoundKeepCourse c10Round).weights = c10Round.weights :=
  claim_C10_resetRoundKeepCourse c10Round (by decide)

/-- The putts part of the loop body does not touch the SD or NPIR counters. -/
theorem sdFields_stepPutts (a : SummaryAcc) (h : Hole) :
    (stepPutts a h).sdEligible = a.sdEligible ∧ (stepPutts a h).sdMade = a.sdMade
    ∧ (stepPutts a h).npirEligible = a.npirEligible
    ∧ (stepPutts a h).npirMade = a.npirMade := by
  unfold stepPutts
  cases h.putts <;> simp

/-- The missed-short-putt part of the loop body does not touch the SD or
NPIR counters. -/
theorem sdFields_stepMissed (a : SummaryAcc) (h : Hole) :
    (stepMissed a h).sdEligible = a.sdEligible ∧ (stepMissed a h).sdMade = a.sdMade
    ∧ (stepMissed a h).npirEligible = a.npirEligible
    ∧ (stepMissed a h).npirMade = a.npirMade := by
  unfold stepMissed
  cases h.missedPutts6ft <;> simp only [] <;> try split
  all_goals simp

/-- The tee-shot part of the loop body does not touch the SD or NPIR
counters. -/
theorem sdFields_stepTee (a : SummaryAcc) (h : Hole) :
    (stepTee a h).sdEligible = a.sdEligible ∧ (stepTee a h).sdMade = a.sdMade
    ∧ (stepTee a h).npirEligible = a.npirEligible
    ∧ (stepTee a h).npirMade = a.npirMade := by
  unfold stepTee
  split <;> simp

/-- Equation of stepStrokes on a hole without strokes. -/
theorem stepStrokes_none (level : Level) (a : SummaryAcc) (h : Hole)
    (hs : h.strokes = none) : stepStrokes level a h = a := by
  unfold stepStrokes
  rw [hs]

/-- Equation of stepStrokes on a hole with strokes. -/
theorem stepStrokes_some (level : Level) (a : SummaryAcc) (h : Hole) (s : ℕ)
    (hs : h.strokes = some s) :
    stepStrokes level a h = p3Bump level (sdBump (strokesBump a s) h) h := by
  unfold stepStrokes
  rw [hs]

/-- One loop iteration preserves the complement invariant: the SD and NPIR
eligible counts stay equal and the made counts stay complementary. -/
theorem sd_npir_invariant_step (level : Level) (w : Weights) (a : SummaryAcc) (h : Hole)
    (h1 : a.sdEligible = a.npirEligible) (h2 : a.sdMade + a.npirMade = a.sdEligible) :
    (stepHole level w a h).sdEligible = (stepHole level w a h).npirEligible
    ∧ (stepHole level w a h).sdMade + (stepHole level w a h).npirMade =
        (stepHole level w a h).sdEligible := by
  unfold stepHole
  obtain ⟨t1, t2, t3, t4⟩ :=
    sdFields_stepTee (stepMissed (stepPutts (stepStrokes level (stepAlways w a h) h) h) h) h
  obtain ⟨m1, m2, m3, m4⟩ := sdFields_stepMissed (stepPutts (stepStrokes level (stepAlways w a h) h) h) h
  obtain ⟨p1, p2, p3, p4⟩ := sdFields_stepPutts (stepStrokes level (stepAlways w a h) h) h
  rw [t1, t2, t3, t4, m1, m2, m3, m4, p1, p2, p3, p4]
  have hp3 : ∀ x : SummaryAcc,
      (p3Bump level x h).sdEligible = x.sdEligible ∧ (p3Bump level x h).sdMade = x.sdMade
      ∧ (p3Bump level x h).npirEligible = x.npirEligible
      ∧ (p3Bump level x h).npirMade = x.npirMade := by
    intro x
    unfold p3Bump
    cases par3Equivalent level h <;> simp
  have key : ∀ x : SummaryAcc, x.sdEligible = x.npirEligible →
      x.sdMade + x.npirMade = x.sdEligible →
      (sdBump x h).sdEligible = (sdBump x h).npirEligible
      ∧ (sdBump x h).sdMade + (sdBump x h).npirMade = (sdBump x h).sdEligible := by
    intro x hx1 hx2
    unfold sdBump
    split_ifs with hpar hrt
    · simp
      omega
    · simp
      omega
    · exact ⟨hx1, hx2⟩
  cases hs : h.strokes with
  | none =>
    rw [stepStrokes_none level (stepAlways w a h) h hs]
    exact ⟨h1, h2⟩
  | some s =>
    rw [stepStrokes_some level (stepAlways w a h) h s hs]
    obtain ⟨r1, r2, r3, r4⟩ := hp3 (sdBump (strokesBump (stepAlways w a h) s) h)
    rw [r1, r2, r3, r4]
    exact key (strokesBump (stepAlways w a h) s) h1 h2

/-- The complement invariant is preserved by the whole fold. -/
theorem sd_npir_invariant_foldl (level : Level) (w : Weights) :
    ∀ (l : List Hole) (a : SummaryAcc),
      a.sdEligible = a.npirEligible → a.sdMade + a.npirMade = a.sdEligible →
      (l.foldl (stepHole level w) a).sdEligible = (l.foldl (stepHole level w) a).npirEligible
      ∧ (l.foldl (stepHole level w) a).sdMade + (l.foldl (stepHole level w) a).npirMade =
          (l.foldl (stepHole level w) a).sdEligible := by
  intro l
  induction l with
  | nil => intro a h1 h2; exact ⟨h1, h2⟩
  | cons hd tl ih =>
    intro a h1 h2
    simp only [List.foldl_cons]
    obtain ⟨g1, g2⟩ := sd_npir_invariant_step level w a hd h1 h2
    exact ih _ g1 g2

/-- C9: in every computed summary NPIR is the exact complement of SD over
the same eligible holes: the eligible counts coincide and the two made
counts add up to the eligible count. -/
theorem claim_C9_sd_npir_complement (round : RoundState) :
    (computeRoundSummary round).sdEligible = (computeRoundSummary round).npirEligible
    ∧ (computeRoundSummary round).sdMade + (computeRoundSummary round).npirMade =
        (computeRoundSummary round).sdEligible := by
  have hfold := sd_npir_invariant_foldl round.level round.weights
    (round.holes.take round.holesCount) initAcc rfl rfl
  exact hfold

/-- Rounding to one decimal is monotone. -/
theorem round1_mono {x y : ℚ} (hxy : x ≤ y) : round1 x ≤ round1 y := by
  unfold round1
  have hf : (⌊x * 10 + 1/2⌋ : ℤ) ≤ ⌊y * 10 + 1/2⌋ := Int.floor_le_floor (by linarith)
  have hq : ((⌊x * 10 + 1/2⌋ : ℤ) : ℚ) ≤ ((⌊y * 10 + 1/2⌋ : ℤ) : ℚ) := by exact_mod_cast hf
  linarith

/-- A weights record with a negative bunker multiplier, type-valid per the
Weights type. -/
def c7w : Weights := ⟨-1, 0⟩

/-- A mishap-free hole. -/
def c7h0 : Hole := { n := 1, par := 4, strokeIndex := 1 }

/-- The same hole with one bunker mishap. -/
def c7h1 : Hole := { n := 1, par := 4, strokeIndex := 1, oopsies := ⟨0, 1, 0⟩ }

/-- Counterexample to C7 as stated: with the type-valid negative bunker
weight, adding one bunker mishap (all other inputs fixed) strictly
decreases holeStrokesLost, so the function is not monotonically
non-decreasing in the bunker count for arbitrary weights. -/
theorem claim_C7_counterexample :
    c7h0.oopsies.bunker ≤ c7h1.oopsies.bunker
    ∧ c7h0.oopsies.lostBall = c7h1.oopsies.lostBall
    ∧ c7h0.oopsies.duffed = c7h1.oopsies.duffed
    ∧ c7h0.putts = c7h1.putts
    ∧ ¬ holeStrokesLost c7h0 c7w ≤ holeStrokesLost c7h1 c7w := by
  refine ⟨by decide, rfl, rfl, rfl, ?_⟩
  have e0 : holeStrokesLost c7h0 c7w = 0 := by
    have harg : ((c7h0.oopsies.lostBall : ℚ) * 2 +
        ((c7h0.oopsies.bunker : ℚ) * c7w.bunker + (c7h0.oopsies.duffed : ℚ) * c7w.duffed) +
        (puttingLost c7h0.putts : ℚ)) = 0 := by
      norm_num [c7h0, c7w, puttingLost]
    rw [holeStrokesLost, harg, round1_eq 0 0 (by norm_num) (by norm_num)]
    norm_num
  have e1 : holeStrokesLost c7h1 c7w = -1 := by
    have harg : ((c7h1.oopsies.lostBall : ℚ) * 2 +
        ((c7h1.oopsies.bunker : ℚ) * c7w.bunker + (c7h1.oopsies.duffed : ℚ) * c7w.duffed) +
        (puttingLost c7h1.putts : ℚ)) = -1 := by
      norm_num [c7h1, c7w, puttingLost]
    rw [holeStrokesLost, harg, round1_eq (-1) (-10) (by norm_num) (by norm_num)]
    norm_num
  rw [e0, e1]
  norm_num

/-- C7 amended: when both weights are non-negative, holeStrokesLost is
monotonically non-decreasing in each of lostBall, bunker, duffed and putts,
holding the other inputs fixed. -/
theorem claim_C7_amended (w : Weights) (hb : 0 ≤ w.bunker) (hd : 0 ≤ w.duffed)
    (h : Hole) (k k' : ℕ) (hk : k ≤ k') :
    (holeStrokesLost { h with oopsies := { h.oopsies with lostBall := k } } w ≤
       holeStrokesLost { h with oopsies := { h.oopsies with lostBall := k' } } w)
    ∧ (holeStrokesLost { h with oopsies := { h.oopsies with bunker := k } } w ≤
       holeStrokesLost { h with oopsies := { h.oopsies with bunker := k' } } w)
    ∧ (holeStrokesLost { h with oopsies := { h.oopsies with duffed := k } } w ≤
       holeStrokesLost { h with oopsies := { h.oopsies with duffed := k' } } w)
    ∧ (holeStrokesLost { h with putts := some k } w ≤
       holeStrokesLost { h with putts := some k' } w) := by
  have hkq : (k : ℚ) ≤ (k' : ℚ) := by exact_mod_cast hk
  refine ⟨?_, ?_, ?_, ?_⟩
  · unfold holeStrokesLost
    apply round1_mono
    dsimp only
    linarith
  · unfold holeStrokesLost
    apply round1_mono
    dsimp only
    have hm := mul_le_mul_of_nonneg_right hkq hb
    linarith
  · unfold holeStrokesLost
    apply round1_mono
    dsimp only
    have hm := mul_le_mul_of_nonneg_right hkq hd
    linarith
  · unfold holeStrokesLost
    apply round1_mono
    dsimp only
    have hpl : puttingLost (some k) ≤ puttingLost (some k') := by
      simp only [puttingLost]
      omega
    have hplq : (puttingLost (some k) : ℚ) ≤ (puttingLost (some k') : ℚ) := by
      exact_mod_cast hpl
    linarith

/-- Witness for the amended C7 at concrete non-negative weights and counts. -/
theorem claim_C7_witness :
    holeStrokesLost { c7h0 with oopsies := { c7h0.oopsies with lostBall := 0 } } ⟨1, 1⟩ ≤
      holeStrokesLost { c7h0 with oopsies := { c7h0.oopsies with lostBall := 1 } } ⟨1, 1⟩ :=
  (claim_C7_amended ⟨1, 1⟩ (by norm_num) (by norm_num) c7h0 0 1 (by norm_num)).1

/-- On non-par-3 holes the allotted-shot count is always defined. -/
theorem allowedShotsToSD_some (level : Level) (h : Hole) (hp : h.par ≠ 3) :
    ∃ a, allowedShotsToSD level h = some a := by
  unfold allowedShotsToSD
  rw [if_neg hp]
  cases level with
  | bogeyGolf => exact ⟨2, by simp⟩
  | scratch => exact ⟨1, by simp⟩
  | break80 =>
    by_cases hsi : h.strokeIndex ≥ 10
    · exact ⟨1, by simp [hsi]⟩
    · exact ⟨2, by simp [hsi]⟩

/-- The concrete hole of the C8 scenario: par 4, stroke index 5, strokes 5. -/
def c8Hole : Hole := { n := 1, par := 4, strokeIndex := 5, strokes := some 5 }

/-- C8: par3Equivalent is undefined without strokes; on a par-3 hole it
succeeds exactly when the strokes stay within targetAfterSD; on a non-par-3
hole the allotted-shot count is defined and the hole succeeds exactly when
strokes minus that count stays within targetAfterSD; and the Scratch
scenario hole with par 4, stroke index 5 and five strokes fails. -/
theorem claim_C8_par3Equivalent :
    (∀ (level : Level) (h : Hole), h.strokes = none → par3Equivalent level h = none)
    ∧ (∀ (level : Level) (h : Hole) (s : ℕ), h.strokes = some s →
        (h.par = 3 → par3Equivalent level h = some (decide (s ≤ targetAfterSD h)))
        ∧ (h.par ≠ 3 → ∃ a, allowedShotsToSD level h = some a ∧
            par3Equivalent level h =
              some (decide ((s : ℤ) - (a : ℤ) ≤ (targetAfterSD h : ℤ)))))
    ∧ par3Equivalent Level.scratch c8Hole = some false := by
  refine ⟨?_, ?_, by decide⟩
  · intro level h hs
    unfold par3Equivalent
    rw [hs]
  · intro level h s hs
    have hshape : par3Equivalent level h =
        if h.par = 3 then some (decide (s ≤ targetAfterSD h))
        else match allowedShotsToSD level h with
          | none => none
          | some a => some (decide ((s : ℤ) - (a : ℤ) ≤ (targetAfterSD h : ℤ))) := by
      unfold par3Equivalent
      rw [hs]
    constructor
    · intro hp
      rw [hshape, if_pos hp]
    · intro hp
      obtain ⟨a, ha⟩ := allowedShotsToSD_some level h hp
      refine ⟨a, ha, ?_⟩
      rw [hshape, if_neg hp, ha]

/-- Witness for C8 at a concrete level and holes, discharging both the
absent-strokes case and the two present-strokes cases. -/
theorem claim_C8_witness :
    par3Equivalent Level.scratch { c8Hole with strokes := none } = none
    ∧ (c8Hole.par = 3 → par3Equivalent Level.scratch c8Hole =
        some (decide (5 ≤ targetAfterSD c8Hole)))
    ∧ (c8Hole.par ≠ 3 → ∃ a, allowedShotsToSD Level.scratch c8Hole = some a ∧
        par3Equivalent Level.scratch c8Hole =
          some (decide ((5 : ℤ) - (a : ℤ) ≤ (targetAfterSD c8Hole : ℤ)))) :=
  ⟨claim_C8_par3Equivalent.1 Level.scratch { c8Hole with strokes := none } rfl,
   (claim_C8_par3Equivalent.2.1 Level.scratch c8Hole 5 rfl).1,
   (claim_C8_par3Equivalent.2.1 Level.scratch c8Hole 5 rfl).2⟩

/-- The default hole list is pointwise the default hole. -/
theorem makeDefaultHoles_getElem (c i : ℕ) (hi : i < c) :
    (makeDefaultHoles c)[i]? = some (defaultHole i) := by
  unfold makeDefaultHoles
  rw [List.getElem?_map, List.getElem?_range hi]
  rfl

/-- Overlay with a present template entry. -/
theorem applyHole_some (t : CourseTemplate) (idx : ℕ) (h : Hole) (src : TemplateHole)
    (hs : t.holes[idx]? = some src) :
    applyHole t idx h =
      { h with n := idx + 1, par := src.par, strokeIndex := src.strokeIndex,
               strokes := none, putts := none, missedPutts6ft := none,
               reachedSD := none, oopsies := ⟨0, 0, 0⟩ } := by
  unfold applyHole
  rw [hs]

/-- Every overlaid hole has all entry fields cleared. -/
theorem applyHole_clears (t : CourseTemplate) (idx : ℕ) (h : Hole) :
    (applyHole t idx h).strokes = none ∧ (applyHole t idx h).putts = none
    ∧ (applyHole t idx h).missedPutts6ft = none ∧ (applyHole t idx h).reachedSD = none
    ∧ (applyHole t idx h).oopsies = ⟨0, 0, 0⟩ := by
  unfold applyHole
  cases t.holes[idx]? <;> exact ⟨rfl, rfl, rfl, rfl, rfl⟩

/-- C3: applying the template snapshot of a round to a fresh base round
preserves par and stroke index at every index below holesCount and clears
every entry field of every hole. The hypothesis is the documented invariant
that the holes list is sized to at least holesCount. -/
theorem claim_C3_template_roundtrip (round : RoundState) (nm newId ts : String)
    (base : BaseRound) (hlen : round.holesCount ≤ round.holes.length) :
    (∀ i, i < round.holesCount →
      ∃ h0 h1, round.holes[i]? = some h0
        ∧ (applyTemplateToNewRound (templateFromRound round nm newId ts) base).holes[i]? = some h1
        ∧ h1.par = h0.par ∧ h1.strokeIndex = h0.strokeIndex)
    ∧ ∀ h1 ∈ (applyTemplateToNewRound (templateFromRound round nm newId ts) base).holes,
        h1.strokes = none ∧ h1.putts = none ∧ h1.missedPutts6ft = none
        ∧ h1.reachedSD = none ∧ h1.oopsies = ⟨0, 0, 0⟩ := by
  constructor
  · intro i hi
    have hil : i < round.holes.length := lt_of_lt_of_le hi hlen
    have htmpl : (templateFromRound round nm newId ts).holes[i]? =
        some ⟨round.holes[i].n, round.holes[i].par, round.holes[i].strokeIndex⟩ := by
      unfold templateFromRound
      rw [List.getElem?_map, List.getElem?_take_of_lt hi, List.getElem?_eq_getElem hil]
      rfl
    have hres : (applyTemplateToNewRound (templateFromRound round nm newId ts) base).holes[i]? =
        some (applyHole (templateFromRound round nm newId ts) i (defaultHole i)) := by
      unfold applyTemplateToNewRound
      simp only [List.getElem?_mapIdx]
      rw [makeDefaultHoles_getElem (templateFromRound round nm newId ts).holesCount i hi]
      rfl
    have happ := applyHole_some (templateFromRound round nm newId ts) i (defaultHole i)
      ⟨round.holes[i].n, round.holes[i].par, round.holes[i].strokeIndex⟩ htmpl
    refine ⟨round.holes[i], applyHole (templateFromRound round nm newId ts) i (defaultHole i),
      List.getElem?_eq_getElem hil, hres, ?_, ?_⟩
    · rw [happ]
    · rw [happ]
  · intro h1 hmem
    unfold applyTemplateToNewRound at hmem
    obtain ⟨i, hi, heq⟩ := List.exists_of_mem_mapIdx hmem
    rw [← heq]
    exact applyHole_clears (templateFromRound round nm newId ts) i _

/-- A concrete one-hole round (with a spare hole) for the C3 witness. -/
def c3Round : RoundState :=
  ⟨1, Level.bogeyGolf, 125, ⟨1, 1⟩,
   [{ n := 1, par := 5, strokeIndex := 7, strokes := some 6, putts := some 2,
      oopsies := ⟨1, 0, 0⟩ }, defaultHole 1]⟩

/-- Witness for C3 at a concrete round, template name, and base. -/
theorem claim_C3_witness :
    (∀ i, i < c3Round.holesCount →
      ∃ h0 h1, c3Round.holes[i]? = some h0
        ∧ (applyTemplateToNewRound (templateFromRound c3Round "X" "tid" "now")
            ⟨Level.scratch, 100, ⟨2, 3⟩⟩).holes[i]? = some h1
        ∧ h1.par = h0.par ∧ h1.strokeIndex = h0.strokeIndex)
    ∧ ∀ h1 ∈ (applyTemplateToNewRound (templateFromRound c3Round "X" "tid" "now")
        ⟨Level.scratch, 100, ⟨2, 3⟩⟩).holes,
        h1.strokes = none ∧ h1.putts = none ∧ h1.missedPutts6ft = none
        ∧ h1.reachedSD = none ∧ h1.oopsies = ⟨0, 0, 0⟩ :=
  claim_C3_template_roundtrip c3Round "X" "tid" "now" ⟨Level.scratch, 100, ⟨2, 3⟩⟩ (by decide)

/-- The finished hole of the C1 scenario. -/
def c1Hole : Hole :=
  { n := 1, par := 4, strokeIndex := 10, strokes := some 5, putts := some 2,
    reachedSD := some true, oopsies := ⟨0, 0, 0⟩ }

/-- The seventeen untouched holes of the C1 scenario. -/
def c1Blank (i : ℕ) : Hole := { n := i + 2, par := 4, strokeIndex := 10 }

/-- The C1 scenario round: 18 holes, Bogey Golf, all par 4 stroke index 10,
exactly the first hole finished. -/
def c1Round : RoundState :=
  { holesCount := 18, level := Level.bogeyGolf, scoringDistance := 125,
    weights := ⟨1, 1⟩,
    holes := c1Hole :: (List.range 17).map c1Blank }

/-- Counterexample to C1 as stated: on the scenario round the code
accumulates par for all eighteen holes, so toPar is 5 - 72 = -67, not 1. -/
theorem claim_C1_counterexample : (computeRoundSummary c1Round).toPar ≠ some 1 := by
  have htp : (computeRoundSummary c1Round).toPar = some (-67) := by
    simp only [computeRoundSummary, summarize,
      show (roundAcc c1Round).holesWithStrokes = 1 from rfl,
      show (roundAcc c1Round).totalStrokes = 5 from rfl,
      show (roundAcc c1Round).totalPar = 72 from rfl]
    norm_num
  rw [htp]
  decide

/-- C1 amended: on the scenario round the finished hole loses no strokes,
the SD and NPIR counters and percentages and the strokes total are as the
claim states, but toPar is totalStrokes minus the par of all eighteen
holes, i.e. 5 - 72 = -67, not 1. -/
theorem claim_C1_amended :
    holeStrokesLost c1Hole c1Round.weights = 0
    ∧ (computeRoundSummary c1Round).sdEligible = 1
    ∧ (computeRoundSummary c1Round).sdMade = 1
    ∧ (computeRoundSummary c1Round).sdPct = some 100
    ∧ (computeRoundSummary c1Round).npirEligible = 1
    ∧ (computeRoundSummary c1Round).npirMade = 0
    ∧ (computeRoundSummary c1Round).npirPct = some 0
    ∧ (computeRoundSummary c1Round).strokes = some 5
    ∧ (computeRoundSummary c1Round).toPar = some (-67) := by
  refine ⟨?_, rfl, rfl, ?_, rfl, rfl, ?_, ?_, ?_⟩
  · have harg : ((c1Hole.oopsies.lostBall : ℚ) * 2 +
        ((c1Hole.oopsies.bunker : ℚ) * c1Round.weights.bunker +
         (c1Hole.oopsies.duffed : ℚ) * c1Round.weights.duffed) +
        (puttingLost c1Hole.putts : ℚ)) = 0 := by
      norm_num [c1Hole, c1Round, puttingLost]
    rw [holeStrokesLost, harg, round1_eq 0 0 (by norm_num) (by norm_num)]
    norm_num
  · simp only [computeRoundSummary, summarize,
      show (roundAcc c1Round).sdEligible = 1 from rfl,
      show (roundAcc c1Round).sdMade = 1 from rfl]
    norm_num
    rw [jsRound_eq 100 100 (by norm_num) (by norm_num)]
  · simp only [computeRoundSummary, summarize,
      show (roundAcc c1Round).npirEligible = 1 from rfl,
      show (roundAcc c1Round).npirMade = 0 from rfl]
    norm_num
    rw [jsRound_eq 0 0 (by norm_num) (by norm_num)]
  · simp only [computeRoundSummary, summarize,
      show (roundAcc c1Round).holesWithStrokes = 1 from rfl,
      show (roundAcc c1Round).totalStrokes = 5 from rfl]
    norm_num
  · simp only [computeRoundSummary, summarize,
      show (roundAcc c1Round).holesWithStrokes = 1 from rfl,
      show (roundAcc c1Round).totalStrokes = 5 from rfl,
      show (roundAcc c1Round).totalPar = 72 from rfl]
    norm_num
